import Mathlib

/-!
Verification of the artifact storage and serving core of the
rossigee/source-controller repository.

The development shallowly embeds the storage subsystem:

* `Artifact` embeds `v1.Artifact` (path, revision, digest, size,
  last-update time, URL); `metav1.Time` instants are modelled as integers,
  `time.Duration` values as integer nanoseconds.
* `sortArtifactsByTime` embeds the exchange sort of
  `pkg/storage/s3.go` lines 527-536.
* `gcMarkLoop` / `garbageCollect` embed `S3Storage.GarbageCollect`
  (`pkg/storage/s3.go` lines 267-305), with the listing already performed
  (the listed artifacts are a parameter) and the success of each
  individual delete modelled by a predicate on paths.
* `store`, `existsS3`, `s3Delete`, `s3GetURL` embed the corresponding
  `S3Storage` methods over an object-store state that maps keys to
  objects; `newS3Storage` embeds the configuration normalisation of
  `NewS3Storage`.
* `serveArtifact` embeds `ArtifactServer.serveArtifact`
  (`pkg/storage/server.go` lines 58-127) over an abstract provider.
* `fsDelete` embeds `FilesystemStorage.Delete`
  (`pkg/storage/filesystem.go` lines 88-93).
* `fileInfoHeader` / `archiveHeaders` embed the tar-header production of
  `S3Storage.Archive` (`pkg/storage/s3.go` lines 355-426).
-/

namespace SourceController

/-- Embeds `v1.Artifact`. `lastUpdateTime` models the `metav1.Time`
instant as an integer; `size` models the `*int64` pointer. -/
structure Artifact where
  path : String
  revision : String
  digest : String
  size : Option Int
  lastUpdateTime : Int
  url : String
  deriving DecidableEq

/-- Embeds `metav1.Time.After`: `timeAfter t u` is true iff the instant
`t` is strictly later than `u`. -/
def timeAfter (t u : Int) : Bool := decide (u < t)

/-- Functional rendering of the inner loop of `sortArtifactsByTime`
(`pkg/storage/s3.go` lines 529-535) for a fixed outer index `i`:
`x` is the current occupant of position `i` and the list holds the
occupants of the positions after `i`.  For each later position `j` in
order, if the occupant of `j` is strictly newer than the occupant of
`i` the two are swapped.  The result is the final occupant of position
`i` together with the final occupants of the later positions. -/
def selectPass (x : Artifact) : List Artifact → Artifact × List Artifact
  | [] => (x, [])
  | y :: ys =>
    if timeAfter y.lastUpdateTime x.lastUpdateTime then
      ((selectPass y ys).1, x :: (selectPass y ys).2)
    else
      ((selectPass x ys).1, y :: (selectPass x ys).2)

/-- The outer loop of `sortArtifactsByTime`: one `selectPass` per outer
index.  The fuel argument counts the remaining outer iterations; it is
initialised with the length of the list, exactly as the Go loop runs
`len(artifacts)` iterations. -/
def sortGo : Nat → List Artifact → List Artifact
  | 0, l => l
  | _ + 1, [] => []
  | n + 1, x :: l =>
    (selectPass x l).1 :: sortGo n (selectPass x l).2

/-- Embeds `sortArtifactsByTime` (`pkg/storage/s3.go` lines 527-536):
the in-place exchange sort over the array of artifacts, rendered
functionally (position 0 receives the result of the first inner pass,
and the loop recurses on the remaining positions). -/
def sortArtifactsByTime (l : List Artifact) : List Artifact :=
  sortGo l.length l

/-- Embeds `RetentionPolicy` (`pkg/storage/adapter.go`): `ttl` in
nanoseconds, `maxRecords` the Go `int`. -/
structure RetentionPolicy where
  ttl : Int
  maxRecords : Int
  deriving DecidableEq

/-- Embeds the marking loop of `S3Storage.GarbageCollect`
(`pkg/storage/s3.go` lines 279-291): `i` is the loop index into the
sorted listing; an artifact is appended to `toDelete` when its age
`now - LastUpdateTime` exceeds the TTL, and otherwise when its index is
at least `MaxRecords`. -/
def gcMarkLoop (now ttl maxR : Int) : Nat → List Artifact → List String
  | _, [] => []
  | i, a :: rest =>
    if now - a.lastUpdateTime > ttl then
      a.path :: gcMarkLoop now ttl maxR (i + 1) rest
    else if (i : Int) ≥ maxR then
      a.path :: gcMarkLoop now ttl maxR (i + 1) rest
    else
      gcMarkLoop now ttl maxR (i + 1) rest

/-- Embeds `S3Storage.GarbageCollect` (`pkg/storage/s3.go` lines
267-305) after the listing step: sort the listed artifacts, mark by TTL
and record count, then delete the marked paths one by one; a failed
delete is skipped (the loop continues) and the successfully deleted
paths are returned.  `deleteOk` models which individual deletes
succeed. -/
def garbageCollect (arts : List Artifact) (now : Int) (policy : RetentionPolicy)
    (deleteOk : String → Bool) : List String :=
  (gcMarkLoop now policy.ttl policy.maxRecords 0 (sortArtifactsByTime arts)).filter deleteOk

/-- Declarative marking predicate, following the specification text: an
artifact is marked iff its age exceeds the TTL or its zero-based
position in the sorted listing is at least `MaxRecords`. -/
def gcMarkedSpec (now ttl maxR : Int) (i : Nat) (a : Artifact) : Bool :=
  decide (now - a.lastUpdateTime > ttl) || decide ((i : Int) ≥ maxR)

/-- Declarative rendering of the specification of `GarbageCollect`:
the successfully deleted paths are exactly the paths of the artifacts
marked by `gcMarkedSpec`, in listing order, restricted to those whose
delete succeeded. -/
def garbageCollectSpec (arts : List Artifact) (now : Int) (policy : RetentionPolicy)
    (deleteOk : String → Bool) : List String :=
  ((((sortArtifactsByTime arts).enum).filter
      (fun q => gcMarkedSpec now policy.ttl policy.maxRecords q.1 q.2)).map
    (fun q => q.2.path)).filter deleteOk

/-- Embeds `strings.TrimSuffix(s, suf)`: remove one trailing occurrence
of `suf` when present. -/
def trimSuffixStr (s suf : String) : String :=
  if (s.data.reverse.take suf.data.length).reverse = suf.data then
    { data := (s.data.reverse.drop suf.data.length).reverse }
  else s

/-- Embeds `strings.TrimPrefix(s, pre)`: remove one leading occurrence
of `pre` when present. -/
def trimPrefixStr (s p : String) : String :=
  if s.data.take p.data.length = p.data then { data := s.data.drop p.data.length } else s

/-- Embeds the fields of `S3Config` that `NewS3Storage` copies into the
storage value.  `urlExpiration` is a `time.Duration` in nanoseconds. -/
structure S3Config where
  bucket : String
  keyPre : String
  hostname : String
  urlExpiration : Int
  deriving DecidableEq

/-- Embeds the fields of `S3Storage` (`pkg/storage/s3.go` lines 42-51)
relevant to the storage operations.  `keyPre` embeds the `prefix`
field. -/
structure S3Storage where
  bucket : String
  keyPre : String
  hostname : String
  urlExpiration : Int
  deriving DecidableEq

/-- Embeds the configuration normalisation of `NewS3Storage`
(`pkg/storage/s3.go` lines 107-117): a zero URL expiration defaults to
15 minutes (900000000000 ns), and a trailing slash is trimmed from the
key prefix.  Client construction and the bucket-existence check are
external I/O and not modelled. -/
def newS3Storage (cfg : S3Config) : S3Storage :=
  { bucket := cfg.bucket
    keyPre := trimSuffixStr cfg.keyPre "/"
    hostname := cfg.hostname
    urlExpiration := if cfg.urlExpiration = 0 then 900000000000 else cfg.urlExpiration }

/-- Embeds `S3Storage.artifactKey` (`pkg/storage/s3.go` lines 507-513)
on a bare path. -/
def objectKey (s : S3Storage) (path : String) : String :=
  if s.keyPre ≠ "" then s.keyPre ++ "/" ++ path else path

/-- Embeds `S3Storage.artifactKey` on an artifact. -/
def artifactKey (s : S3Storage) (a : Artifact) : String :=
  objectKey s a.path

/-- An object held by the S3-compatible store: the uploaded bytes
together with the content type and user metadata that
`S3Storage.Store` attaches. -/
structure S3Object where
  data : List Nat
  contentType : String
  metaDigest : String
  metaRevision : String
  deriving DecidableEq

/-- The state of the S3-compatible store: a map from object keys to
objects. -/
def S3State := String → Option S3Object

/-- `minio.Client.PutObject` on the state: the key now maps to the
uploaded object (last writer wins). -/
def putObject (st : S3State) (key : String) (o : S3Object) : S3State :=
  fun k => if k = key then some o else st k

/-- `minio.Client.RemoveObject` on the state: the key maps to nothing
afterwards.  S3 `DeleteObject` succeeds also when the key is absent. -/
def removeObject (st : S3State) (key : String) : S3State :=
  fun k => if k = key then none else st k

/-- Outcome of `minio.Client.StatObject`: either the object, or an
error whose `minio.ToErrorResponse(err).Code` is `code`. -/
inductive StatResult where
  | found (o : S3Object)
  | errCode (code : String)
  deriving DecidableEq

/-- `StatObject` against the store state: a present key is found, an
absent key yields the `NoSuchKey` error code. -/
def statOf (st : S3State) (key : String) : StatResult :=
  match st key with
  | some o => StatResult.found o
  | none => StatResult.errCode "NoSuchKey"

/-- Embeds `S3Storage.Exists` (`pkg/storage/s3.go` lines 169-183) as a
function of the `StatObject` outcome: a `NoSuchKey` error code is
mapped to `(false, nil)`, any other error code is propagated as an
error, and a successful stat yields `(true, nil)`. -/
def existsS3 (r : StatResult) : Except String Bool :=
  match r with
  | StatResult.found _ => Except.ok true
  | StatResult.errCode code =>
    if code = "NoSuchKey" then Except.ok false
    else Except.error "failed to check object existence"

/-- `S3Storage.Exists` of an artifact path against a store state. -/
def s3ExistsAt (st : S3State) (s : S3Storage) (path : String) : Except String Bool :=
  existsS3 (statOf st (objectKey s path))

/-- Embeds the digest pipeline (`intdigest.Canonical.Digester`): the
configured algorithm has a name and a hex function; the digest string
of bytes `bs` is `name ++ ":" ++ hex bs`. -/
structure DigestAlgo where
  algoName : String
  hexOf : List Nat → String

/-- Embeds `S3Storage.Store` (`pkg/storage/s3.go` lines 121-154).
The stream is modelled by its read outcome `readResult` (the bytes the
reader yields, or a read error), `putOk` models whether the `PutObject`
request succeeds, and `nowT` models `metav1.Now()`.  Returns the new
store state, the (possibly updated) artifact, and the error if any:
on a read error or an upload error the artifact is returned untouched;
on success the object is uploaded under the artifact key with content
type `application/gzip` and user metadata `digest` and `revision`, and
the artifact's digest, last-update time and size are updated (the size
is the byte count accumulated by `writeCounter`). -/
def store (s : S3Storage) (algo : DigestAlgo) (st : S3State) (a : Artifact)
    (readResult : Except String (List Nat)) (putOk : Bool) (nowT : Int) :
    S3State × Artifact × Option String :=
  match readResult with
  | Except.error _ => (st, a, some "failed to read content")
  | Except.ok bs =>
    if putOk then
      (putObject st (artifactKey s a)
        { data := bs
          contentType := "application/gzip"
          metaDigest := algo.algoName ++ ":" ++ algo.hexOf bs
          metaRevision := a.revision },
       { a with
          digest := algo.algoName ++ ":" ++ algo.hexOf bs
          lastUpdateTime := nowT
          size := some (Int.ofNat bs.length) },
       none)
    else (st, a, some "failed to upload to S3")

/-- Embeds `S3Storage.Delete` (`pkg/storage/s3.go` lines 186-195): a
single `RemoveObject` on the artifact key. -/
def s3Delete (s : S3Storage) (st : S3State) (path : String) : S3State :=
  removeObject st (objectKey s path)

/-- Embeds `S3Storage.GetURL` (`pkg/storage/s3.go` lines 198-208):
`PresignedGetObject` on the artifact key with the configured URL
expiration.  `presign` models the MinIO presigning function (key and
expiry to URL). -/
def s3GetURL (s : S3Storage) (presign : String → Int → String) (path : String) : String :=
  presign (objectKey s path) s.urlExpiration

/-- Abstract view of a storage provider as used by
`ArtifactServer.serveArtifact`: the `Exists`, `GetURL` and `Retrieve`
operations on a path, plus whether the provider is the `*S3Storage`
backend (the Go code type-switches on it). -/
structure ProviderModel where
  existsCheck : String → Except String Bool
  isS3 : Bool
  getURL : String → Except String String
  retrieve : String → Except String (List Nat)

/-- An HTTP response as produced by `serveArtifact`: status code, the
headers the handler sets, and the body bytes. -/
structure Response where
  status : Nat
  contentType : Option String
  cacheControl : Option String
  location : Option String
  body : List Nat
  deriving DecidableEq

/-- `http.Error` and `http.NotFound`: a bare status response. -/
def errorResponse (code : Nat) : Response :=
  { status := code, contentType := none, cacheControl := none, location := none, body := [] }

/-- Embeds `ArtifactServer.serveArtifact` (`pkg/storage/server.go`
lines 58-127): methods other than GET and HEAD are rejected with 405;
the path is the URL path with one leading slash trimmed, and an empty
path yields 400; an `Exists` error yields 500, a false result 404; a
HEAD request returns 200 with `Content-Type: application/gzip` and no
body; a GET on the S3 backend redirects (307) to the presigned URL
(500 when `GetURL` fails); a GET on any other backend streams the
retrieved bytes with 200 (500 when `Retrieve` fails). -/
def serveArtifact (p : ProviderModel) (method urlPath : String) : Response :=
  if method ≠ "GET" ∧ method ≠ "HEAD" then errorResponse 405
  else if trimPrefixStr urlPath "/" = "" then errorResponse 400
  else
    match p.existsCheck (trimPrefixStr urlPath "/") with
    | Except.error _ => errorResponse 500
    | Except.ok false => errorResponse 404
    | Except.ok true =>
      if method = "HEAD" then
        { status := 200, contentType := some "application/gzip",
          cacheControl := none, location := none, body := [] }
      else if p.isS3 then
        match p.getURL (trimPrefixStr urlPath "/") with
        | Except.error _ => errorResponse 500
        | Except.ok u =>
          { status := 307, contentType := none, cacheControl := none,
            location := some u, body := [] }
      else
        match p.retrieve (trimPrefixStr urlPath "/") with
        | Except.error _ => errorResponse 500
        | Except.ok bs =>
          { status := 200, contentType := some "application/gzip",
            cacheControl := some "no-cache, no-store, must-revalidate",
            location := none, body := bs }

/-- The `ProviderModel` realised by `S3Storage` over a store state:
`Exists` stats the object key, `GetURL` presigns it, `Retrieve` fetches
the object bytes, and the backend type check is true. -/
def s3Provider (s : S3Storage) (st : S3State) (presign : String → Int → String) :
    ProviderModel :=
  { existsCheck := fun path => s3ExistsAt st s path
    isS3 := true
    getURL := fun path => Except.ok (s3GetURL s presign path)
    retrieve := fun path =>
      match st (objectKey s path) with
      | some o => Except.ok o.data
      | none => Except.error "failed to get object from S3" }

/-- The filesystem backend state: which artifact paths hold a stored
file. -/
def FsState := String → Bool

/-- Error of the legacy `controller.Storage.Remove`.  Modelled from the
spec: `controller.Storage` is not under `src/`; per the specification
the filesystem `Delete` is `remove` with `ENOENT` as success, so
`Remove` is `os.Remove` of the artifact's local path, failing with the
not-exist error when the file is absent. -/
inductive FsErr where
  | notExist
  deriving DecidableEq

/-- Modelled from the spec: `controller.Storage.Remove` (not under
`src/`) removes the artifact's file; removing an absent file yields the
not-exist error. -/
def fsRemove (st : FsState) (path : String) : FsState × Option FsErr :=
  if st path then ((fun q => if q = path then false else st q), none)
  else (st, some FsErr.notExist)

/-- `os.IsNotExist` on the modelled error. -/
def isNotExist (e : FsErr) : Bool :=
  match e with
  | FsErr.notExist => true

/-- Embeds `FilesystemStorage.Delete` (`pkg/storage/filesystem.go`
lines 88-93): call `Remove` and treat a not-exist error as success. -/
def fsDelete (st : FsState) (path : String) : FsState × Option String :=
  match fsRemove st path with
  | (st2, none) => (st2, none)
  | (st2, some e) =>
    if isNotExist e then (st2, none)
    else (st2, some "failed to remove artifact")

/-- The file metadata the archive walk sees: mode bits, modification
time, and the owner fields that `os.Stat` exposes through `Sys()` on
Unix. -/
structure FileInfo where
  mode : Nat
  modTime : Int
  uid : Nat
  gid : Nat
  uname : String
  gname : String
  isRegular : Bool
  isDir : Bool
  deriving DecidableEq

/-- A tar header as produced by the archive builder (the fields the
specification speaks about). -/
structure TarHeader where
  name : String
  mode : Nat
  modTime : Int
  uid : Nat
  gid : Nat
  uname : String
  gname : String
  deriving DecidableEq

/-- Model of the Go standard library `tar.FileInfoHeader` for a regular
file on Unix: the mode bits and modification time are copied from the
file info, and the `Uid`, `Gid`, `Uname` and `Gname` fields are filled
from the file's system metadata (`os.FileInfo.Sys()`), as documented
for `archive/tar`. -/
def fileInfoHeader (info : FileInfo) : TarHeader :=
  { name := ""
    mode := info.mode
    modTime := info.modTime
    uid := info.uid
    gid := info.gid
    uname := info.uname
    gname := info.gname }

/-- Embeds the per-file header construction of `S3Storage.Archive`
(`pkg/storage/s3.go` lines 384-395): `tar.FileInfoHeader` on the file
info, then the name is replaced by the path relative to the source
root. -/
def archiveHeader (relPath : String) (info : FileInfo) : TarHeader :=
  { fileInfoHeader info with name := relPath }

/-- One entry yielded by the `filepath.Walk` over the source directory:
its path relative to the source root and its file info. -/
structure WalkEntry where
  relPath : String
  info : FileInfo
  deriving DecidableEq

/-- Embeds the header production of `S3Storage.Archive`
(`pkg/storage/s3.go` lines 363-411) over the walked entries: an entry
excluded by the filter produces no header, a non-regular entry (this
covers directories) produces no header, and every other entry produces
its `archiveHeader`.  Pruning of excluded directory subtrees only
restricts which entries are walked and is reflected in the entry
list. -/
def archiveHeaders (entries : List WalkEntry) (filt : Option (String → Bool → Bool)) :
    List TarHeader :=
  entries.filterMap fun e =>
    if (match filt with | some f => f e.relPath e.info.isDir | none => false) then none
    else if e.info.isRegular then some (archiveHeader e.relPath e.info)
    else none

/-- Concrete artifact with path `a`, used on concrete inputs. -/
def artA : Artifact :=
  { path := "a", revision := "", digest := "", size := none, lastUpdateTime := 0, url := "" }

/-- Concrete artifact with path `b` and the same last-update time as
`artA`. -/
def artB : Artifact :=
  { path := "b", revision := "", digest := "", size := none, lastUpdateTime := 0, url := "" }

/-- Concrete artifact last updated at instant 0. -/
def artOld : Artifact :=
  { path := "gitrepository/default/app/rev1.tar.gz", revision := "rev1", digest := "",
    size := none, lastUpdateTime := 0, url := "" }

/-- Concrete artifact last updated at instant 100. -/
def artNew : Artifact :=
  { path := "gitrepository/default/app/rev2.tar.gz", revision := "rev2", digest := "",
    size := none, lastUpdateTime := 100, url := "" }

/-- Concrete storage configuration with no key prefix. -/
def storage0 : S3Storage :=
  { bucket := "flux", keyPre := "", hostname := "demo.local", urlExpiration := 900000000000 }

/-- Concrete digest algorithm model. -/
def algo0 : DigestAlgo :=
  { algoName := "sha256", hexOf := fun bs => toString bs.length }

/-- The empty store state. -/
def emptyState : S3State := fun _ => none

/-- A concrete stored object. -/
def obj0 : S3Object :=
  { data := [104, 105], contentType := "application/gzip", metaDigest := "", metaRevision := "" }

/-- Store state holding `obj0` under one key. -/
def state0 : S3State :=
  fun k => if k = "gitrepository/default/app/rev1.tar.gz" then some obj0 else none

/-- Concrete S3 configuration with an unset (zero) URL expiration. -/
def cfg0 : S3Config :=
  { bucket := "flux", keyPre := "", hostname := "demo.local", urlExpiration := 0 }

/-- A concrete non-S3 provider holding one artifact. -/
def provider0 : ProviderModel :=
  { existsCheck := fun p => Except.ok (decide (p = "test/artifact.tar.gz"))
    isS3 := false
    getURL := fun p => Except.ok ("http://example.com/" ++ p)
    retrieve := fun p =>
      if p = "test/artifact.tar.gz" then Except.ok [116, 99] else Except.error "not found" }

/-- Concrete file metadata owned by uid/gid 1000. -/
def info1000 : FileInfo :=
  { mode := 420, modTime := 7, uid := 1000, gid := 1000, uname := "build", gname := "build",
    isRegular := true, isDir := false }

/-- The tar header the archive builder emits for a file with metadata
`info1000` at relative path `f.txt`. -/
def hdr1000 : TarHeader :=
  { name := "f.txt", mode := 420, modTime := 7, uid := 1000, gid := 1000,
    uname := "build", gname := "build" }

/-- A concrete walk entry carrying `info1000`. -/
def entry1000 : WalkEntry := { relPath := "f.txt", info := info1000 }

theorem timeAfter_eq_true {t u : Int} : timeAfter t u = true ↔ u < t := by
  simp [timeAfter]

theorem selectPass_perm (x : Artifact) (l : List Artifact) :
    ((selectPass x l).1 :: (selectPass x l).2).Perm (x :: l) := by
  induction l generalizing x with
  | nil => simp [selectPass]
  | cons y ys ih =>
    by_cases h : timeAfter y.lastUpdateTime x.lastUpdateTime = true
    · simp only [selectPass, if_pos h]
      exact (List.Perm.swap x (selectPass y ys).1 (selectPass y ys).2).trans ((ih y).cons x)
    · simp only [selectPass, if_neg h]
      exact ((List.Perm.swap y (selectPass x ys).1 (selectPass x ys).2).trans
        ((ih x).cons y)).trans (List.Perm.swap x y ys)

theorem selectPass_fst_le (x : Artifact) (l : List Artifact) :
    x.lastUpdateTime ≤ (selectPass x l).1.lastUpdateTime := by
  induction l generalizing x with
  | nil => simp [selectPass]
  | cons y ys ih =>
    by_cases h : timeAfter y.lastUpdateTime x.lastUpdateTime = true
    · simp only [selectPass, if_pos h]
      exact le_trans (le_of_lt (timeAfter_eq_true.mp h)) (ih y)
    · simp only [selectPass, if_neg h]
      exact ih x

theorem selectPass_snd_le (x : Artifact) (l : List Artifact) :
    ∀ z ∈ (selectPass x l).2, z.lastUpdateTime ≤ (selectPass x l).1.lastUpdateTime := by
  induction l generalizing x with
  | nil => intro z hz; simp [selectPass] at hz
  | cons y ys ih =>
    intro z hz
    by_cases h : timeAfter y.lastUpdateTime x.lastUpdateTime = true
    · simp only [selectPass, if_pos h] at hz ⊢
      rcases List.mem_cons.mp hz with rfl | hz2
      · exact le_trans (le_of_lt (timeAfter_eq_true.mp h)) (selectPass_fst_le y ys)
      · exact ih y z hz2
    · simp only [selectPass, if_neg h] at hz ⊢
      rcases List.mem_cons.mp hz with rfl | hz2
      · have hyx : z.lastUpdateTime ≤ x.lastUpdateTime := by
          have h2 : ¬ x.lastUpdateTime < z.lastUpdateTime := by
            simpa [timeAfter_eq_true] using h
          exact le_of_not_lt h2
        exact le_trans hyx (selectPass_fst_le x ys)
      · exact ih x z hz2

theorem selectPass_snd_length (x : Artifact) (l : List Artifact) :
    (selectPass x l).2.length = l.length := by
  have h := (selectPass_perm x l).length_eq
  simpa using h

theorem sortGo_perm : ∀ (n : Nat) (l : List Artifact), l.length ≤ n → (sortGo n l).Perm l
  | 0, l, _ => by simp [sortGo]
  | _ + 1, [], _ => by simp [sortGo]
  | n + 1, x :: l, h => by
    simp only [sortGo]
    have hlen : (selectPass x l).2.length ≤ n := by
      rw [selectPass_snd_length]
      simpa using h
    exact ((sortGo_perm n (selectPass x l).2 hlen).cons (selectPass x l).1).trans
      (selectPass_perm x l)

theorem sortGo_pairwise : ∀ (n : Nat) (l : List Artifact), l.length ≤ n →
    (sortGo n l).Pairwise (fun a b => b.lastUpdateTime ≤ a.lastUpdateTime)
  | 0, l, h => by
    have hl : l = [] := List.eq_nil_of_length_eq_zero (Nat.le_zero.mp h)
    subst hl; simp [sortGo]
  | _ + 1, [], _ => by simp [sortGo]
  | n + 1, x :: l, h => by
    simp only [sortGo]
    have hlen : (selectPass x l).2.length ≤ n := by
      rw [selectPass_snd_length]
      simpa using h
    refine List.pairwise_cons.mpr ⟨?_, sortGo_pairwise n (selectPass x l).2 hlen⟩
    intro z hz
    exact selectPass_snd_le x l z ((sortGo_perm n (selectPass x l).2 hlen).mem_iff.mp hz)

/-- C3 counterexample: two artifacts with equal `LastUpdateTime` are
not reordered; the lexicographically larger path stays first, refuting
the claimed `Path`-ascending tie-break. -/
theorem sortArtifactsByTime_no_path_tiebreak :
    artB.lastUpdateTime = artA.lastUpdateTime ∧ artA.path < artB.path ∧
    sortArtifactsByTime [artB, artA] = [artB, artA] := by
  refine ⟨rfl, ?_, by decide⟩
  exact String.lt_iff_toList_lt.mpr (by decide)

/-- C3 (amended): `sortArtifactsByTime` returns a permutation of its
input ordered by `LastUpdateTime` descending (newest first); artifacts
with equal `LastUpdateTime` are not tie-broken by `Path`. -/
theorem sortArtifactsByTime_perm_and_sorted (l : List Artifact) :
    ((sortArtifactsByTime l).Perm l) ∧
    (sortArtifactsByTime l).Pairwise (fun a b => b.lastUpdateTime ≤ a.lastUpdateTime) :=
  ⟨sortGo_perm l.length l le_rfl, sortGo_pairwise l.length l le_rfl⟩

theorem gcMarkLoop_subset (now ttl maxR : Int) :
    ∀ (l : List Artifact) (i : Nat) (x : String),
      x ∈ gcMarkLoop now ttl maxR i l → x ∈ l.map Artifact.path
  | [], _, x, hx => by simp [gcMarkLoop] at hx
  | a :: rest, i, x, hx => by
    simp only [gcMarkLoop] at hx
    simp only [List.map_cons, List.mem_cons]
    by_cases h1 : now - a.lastUpdateTime > ttl
    · rw [if_pos h1] at hx
      rcases List.mem_cons.mp hx with rfl | hx2
      · exact Or.inl rfl
      · exact Or.inr (gcMarkLoop_subset now ttl maxR rest (i + 1) x hx2)
    · rw [if_neg h1] at hx
      by_cases h2 : (i : Int) ≥ maxR
      · rw [if_pos h2] at hx
        rcases List.mem_cons.mp hx with rfl | hx2
        · exact Or.inl rfl
        · exact Or.inr (gcMarkLoop_subset now ttl maxR rest (i + 1) x hx2)
      · rw [if_neg h2] at hx
        exact Or.inr (gcMarkLoop_subset now ttl maxR rest (i + 1) x hx)

theorem gcMarkLoop_eq_enumFrom (now ttl maxR : Int) :
    ∀ (l : List Artifact) (i : Nat),
      gcMarkLoop now ttl maxR i l =
        ((l.enumFrom i).filter (fun q => gcMarkedSpec now ttl maxR q.1 q.2)).map
          (fun q => q.2.path)
  | [], _ => by simp [gcMarkLoop]
  | a :: rest, i => by
    by_cases h1 : now - a.lastUpdateTime > ttl
    · have hm : gcMarkedSpec now ttl maxR i a = true := by
        simp [gcMarkedSpec]; exact Or.inl h1
      simp only [gcMarkLoop, if_pos h1]
      rw [gcMarkLoop_eq_enumFrom now ttl maxR rest (i + 1)]
      simp [List.enumFrom, List.filter_cons, hm]
    · by_cases h2 : (i : Int) ≥ maxR
      · have hm : gcMarkedSpec now ttl maxR i a = true := by
          simp [gcMarkedSpec]; exact Or.inr h2
        simp only [gcMarkLoop, if_neg h1, if_pos h2]
        rw [gcMarkLoop_eq_enumFrom now ttl maxR rest (i + 1)]
        simp [List.enumFrom, List.filter_cons, hm]
      · have hm : gcMarkedSpec now ttl maxR i a = false := by
          simp [gcMarkedSpec]
          exact ⟨not_lt.mp (by simpa using h1), not_le.mp (by simpa using h2)⟩
        simp only [gcMarkLoop, if_neg h1, if_neg h2]
        rw [gcMarkLoop_eq_enumFrom now ttl maxR rest (i + 1)]
        simp [List.enumFrom, List.filter_cons, hm]

/-- C2: the garbage-collection result equals its declarative
specification: an artifact of the sorted listing is marked iff its age
exceeds the TTL or its zero-based position is at least `MaxRecords`,
and the returned list is exactly the marked paths whose individual
deletes succeeded, in order (failed deletes are skipped and the loop
continues). -/
theorem garbageCollect_eq_spec (arts : List Artifact) (now : Int)
    (policy : RetentionPolicy) (deleteOk : String → Bool) :
    garbageCollect arts now policy deleteOk = garbageCollectSpec arts now policy deleteOk := by
  unfold garbageCollect garbageCollectSpec
  rw [gcMarkLoop_eq_enumFrom now policy.ttl policy.maxRecords (sortArtifactsByTime arts) 0]
  rfl

/-- C1 counterexample: a scope whose single artifact (hence the one
with maximal `LastUpdateTime`, at position 0 of the sorted listing) is
older than the TTL: `GarbageCollect` deletes it. -/
theorem gc_deletes_expired_newest :
    (∀ b ∈ [artOld], b.lastUpdateTime ≤ artOld.lastUpdateTime) ∧
    artOld.path ∈
      garbageCollect [artOld] 100 { ttl := 10, maxRecords := 5 } (fun _ => true) := by
  decide

/-- C1 (amended): `GarbageCollect` never deletes the artifact at
position 0 of the newest-first sorted listing provided its age does not
exceed the policy TTL and `MaxRecords` is at least 1 (paths being
unique in the scope); a newest artifact whose age exceeds the TTL is
deleted like any other. -/
theorem gc_keeps_newest_within_ttl (arts : List Artifact) (now : Int)
    (policy : RetentionPolicy) (deleteOk : String → Bool) (a : Artifact)
    (rest : List Artifact)
    (hsort : sortArtifactsByTime arts = a :: rest)
    (httl : now - a.lastUpdateTime ≤ policy.ttl)
    (hmax : 1 ≤ policy.maxRecords)
    (hpath : a.path ∉ rest.map Artifact.path) :
    a.path ∉ garbageCollect arts now policy deleteOk := by
  intro hmem
  unfold garbageCollect at hmem
  rw [hsort] at hmem
  have hmem2 : a.path ∈ gcMarkLoop now policy.ttl policy.maxRecords 0 (a :: rest) :=
    List.mem_of_mem_filter hmem
  simp only [gcMarkLoop] at hmem2
  rw [if_neg (not_lt.mpr httl)] at hmem2
  have hmr : ¬ ((0 : Nat) : Int) ≥ policy.maxRecords := by
    simp only [Nat.cast_zero, ge_iff_le, not_le]
    exact lt_of_lt_of_le zero_lt_one hmax
  rw [if_neg hmr] at hmem2
  exact hpath (gcMarkLoop_subset now policy.ttl policy.maxRecords rest 1 a.path hmem2)

/-- Concrete instantiation of `gc_keeps_newest_within_ttl`. -/
theorem gc_keeps_newest_within_ttl_witness :
    sortArtifactsByTime [artNew] = [artNew] ∧
    (100 : Int) - artNew.lastUpdateTime ≤ 10 ∧
    (1 : Int) ≤ 1 ∧
    artNew.path ∉ ([] : List Artifact).map Artifact.path ∧
    artNew.path ∉
      garbageCollect [artNew] 100 { ttl := 10, maxRecords := 1 } (fun _ => true) :=
  ⟨by decide, by decide, by decide, by decide,
    gc_keeps_newest_within_ttl [artNew] 100 { ttl := 10, maxRecords := 1 } (fun _ => true)
      artNew [] (by decide) (by decide) (by decide) (by decide)⟩

/-- C4: the artifact server's response cases.  A method other than GET
or HEAD yields 405; an empty (trimmed) path yields 400; otherwise
`Exists` is consulted: an error yields 500 and a false result 404; a
HEAD request on an existing artifact yields 200 with
`Content-Type: application/gzip` and an empty body; a GET on an
existing artifact yields 307 on the object-store backend (given the
presigned URL) and otherwise streams the retrieved body with 200. -/
theorem serveArtifact_cases (p : ProviderModel) (method urlPath : String) :
    (method ≠ "GET" → method ≠ "HEAD" →
      serveArtifact p method urlPath = errorResponse 405) ∧
    ((method = "GET" ∨ method = "HEAD") → trimPrefixStr urlPath "/" = "" →
      serveArtifact p method urlPath = errorResponse 400) ∧
    ((method = "GET" ∨ method = "HEAD") → trimPrefixStr urlPath "/" ≠ "" →
      (∀ e, p.existsCheck (trimPrefixStr urlPath "/") = Except.error e →
        serveArtifact p method urlPath = errorResponse 500) ∧
      (p.existsCheck (trimPrefixStr urlPath "/") = Except.ok false →
        serveArtifact p method urlPath = errorResponse 404)) ∧
    (trimPrefixStr urlPath "/" ≠ "" →
      p.existsCheck (trimPrefixStr urlPath "/") = Except.ok true →
      (serveArtifact p "HEAD" urlPath =
        { status := 200, contentType := some "application/gzip",
          cacheControl := none, location := none, body := [] }) ∧
      (p.isS3 = true → ∀ u, p.getURL (trimPrefixStr urlPath "/") = Except.ok u →
        serveArtifact p "GET" urlPath =
          { status := 307, contentType := none, cacheControl := none,
            location := some u, body := [] }) ∧
      (p.isS3 = false → ∀ bs, p.retrieve (trimPrefixStr urlPath "/") = Except.ok bs →
        serveArtifact p "GET" urlPath =
          { status := 200, contentType := some "application/gzip",
            cacheControl := some "no-cache, no-store, must-revalidate",
            location := none, body := bs })) := by
  refine ⟨?_, ?_, ?_, ?_⟩
  · intro h1 h2
    unfold serveArtifact
    rw [if_pos ⟨h1, h2⟩]
  · rintro (rfl | rfl) hp
    · unfold serveArtifact
      rw [if_neg (by decide), if_pos hp]
    · unfold serveArtifact
      rw [if_neg (by decide), if_pos hp]
  · rintro (rfl | rfl) hp
    · refine ⟨?_, ?_⟩
      · intro e he
        unfold serveArtifact
        rw [if_neg (by decide), if_neg hp, he]
      · intro he
        unfold serveArtifact
        rw [if_neg (by decide), if_neg hp, he]
    · refine ⟨?_, ?_⟩
      · intro e he
        unfold serveArtifact
        rw [if_neg (by decide), if_neg hp, he]
      · intro he
        unfold serveArtifact
        rw [if_neg (by decide), if_neg hp, he]
  · intro hp hex
    refine ⟨?_, ?_, ?_⟩
    · unfold serveArtifact
      rw [if_neg (by decide), if_neg hp, hex]
      rfl
    · intro hs3 u hu
      unfold serveArtifact
      rw [if_neg (by decide), if_neg hp, hex, if_neg (by decide), hs3, if_pos rfl, hu]
    · intro hs3 bs hb
      unfold serveArtifact
      rw [if_neg (by decide), if_neg hp, hex, if_neg (by decide), hs3, if_neg (by decide), hb]

/-- Concrete instantiation of `serveArtifact_cases`: a POST is
rejected with 405, a HEAD on an existing artifact yields 200, and a GET
on the non-object-store provider streams the bytes with 200. -/
theorem serveArtifact_cases_witness :
    trimPrefixStr "/test/artifact.tar.gz" "/" ≠ "" ∧
    provider0.existsCheck "test/artifact.tar.gz" = Except.ok true ∧
    serveArtifact provider0 "POST" "/test/artifact.tar.gz" = errorResponse 405 ∧
    serveArtifact provider0 "HEAD" "/test/artifact.tar.gz" =
      { status := 200, contentType := some "application/gzip",
        cacheControl := none, location := none, body := [] } ∧
    serveArtifact provider0 "GET" "/test/artifact.tar.gz" =
      { status := 200, contentType := some "application/gzip",
        cacheControl := some "no-cache, no-store, must-revalidate",
        location := none, body := [116, 99] } :=
  ⟨by decide, rfl,
    (serveArtifact_cases provider0 "POST" "/test/artifact.tar.gz").1
      (by decide) (by decide),
    ((serveArtifact_cases provider0 "HEAD" "/test/artifact.tar.gz").2.2.2
      (by decide) rfl).1,
    ((serveArtifact_cases provider0 "GET" "/test/artifact.tar.gz").2.2.2
      (by decide) rfl).2.2 rfl [116, 99] rfl⟩

/-- C5: on the object-store backend, a GET for an existing artifact
responds 307 Temporary Redirect whose Location is the presigned GET URL
of the artifact's object key, and the presign TTL is the configured URL
expiration, defaulting to 15 minutes (900000000000 ns) when the
configuration leaves it zero. -/
theorem serveArtifact_s3_presigned (cfg : S3Config) (st : S3State)
    (presign : String → Int → String) (urlPath : String) (o : S3Object)
    (hpath : trimPrefixStr urlPath "/" ≠ "")
    (hobj : st (objectKey (newS3Storage cfg) (trimPrefixStr urlPath "/")) = some o) :
    (newS3Storage cfg).urlExpiration =
      (if cfg.urlExpiration = 0 then 900000000000 else cfg.urlExpiration) ∧
    serveArtifact (s3Provider (newS3Storage cfg) st presign) "GET" urlPath =
      { status := 307, contentType := none, cacheControl := none,
        location := some (presign (objectKey (newS3Storage cfg) (trimPrefixStr urlPath "/"))
          (if cfg.urlExpiration = 0 then 900000000000 else cfg.urlExpiration)),
        body := [] } := by
  refine ⟨rfl, ?_⟩
  have hex : (s3Provider (newS3Storage cfg) st presign).existsCheck
      (trimPrefixStr urlPath "/") = Except.ok true := by
    simp [s3Provider, s3ExistsAt, statOf, hobj, existsS3]
  unfold serveArtifact
  rw [if_neg (by decide), if_neg hpath, hex, if_neg (by decide)]
  have hs3 : (s3Provider (newS3Storage cfg) st presign).isS3 = true := rfl
  rw [hs3, if_pos rfl]
  have hu : (s3Provider (newS3Storage cfg) st presign).getURL (trimPrefixStr urlPath "/") =
      Except.ok (presign (objectKey (newS3Storage cfg) (trimPrefixStr urlPath "/"))
        (if cfg.urlExpiration = 0 then 900000000000 else cfg.urlExpiration)) := rfl
  rw [hu]

/-- Concrete instantiation of `serveArtifact_s3_presigned`: with a zero
configured expiration the redirect presigns for 15 minutes. -/
theorem serveArtifact_s3_presigned_witness :
    trimPrefixStr "/gitrepository/default/app/rev1.tar.gz" "/" ≠ "" ∧
    state0 (objectKey (newS3Storage cfg0)
      (trimPrefixStr "/gitrepository/default/app/rev1.tar.gz" "/")) = some obj0 ∧
    (newS3Storage cfg0).urlExpiration = 900000000000 ∧
    serveArtifact
      (s3Provider (newS3Storage cfg0) state0 (fun k _ => k ++ "?presigned"))
      "GET" "/gitrepository/default/app/rev1.tar.gz" =
      { status := 307, contentType := none, cacheControl := none,
        location := some "gitrepository/default/app/rev1.tar.gz?presigned",
        body := [] } := by
  refine ⟨by decide, rfl, by decide, ?_⟩
  exact (serveArtifact_s3_presigned cfg0 state0 (fun k _ => k ++ "?presigned")
    "/gitrepository/default/app/rev1.tar.gz" obj0 (by decide) rfl).2

/-- C6: after a successful `Store` whose stream yielded bytes `bs`, no
error is reported, the artifact's digest is the configured algorithm's
digest of `bs` in the form `algo:hex`, its size is the byte length of
`bs`, and `Exists` on the artifact's path over the new store state is
true. -/
theorem store_success_postcondition (s : S3Storage) (algo : DigestAlgo) (st : S3State)
    (a : Artifact) (bs : List Nat) (nowT : Int) :
    (store s algo st a (Except.ok bs) true nowT).2.2 = none ∧
    (store s algo st a (Except.ok bs) true nowT).2.1.digest =
      algo.algoName ++ ":" ++ algo.hexOf bs ∧
    (store s algo st a (Except.ok bs) true nowT).2.1.size = some (Int.ofNat bs.length) ∧
    s3ExistsAt (store s algo st a (Except.ok bs) true nowT).1 s
      (store s algo st a (Except.ok bs) true nowT).2.1.path = Except.ok true := by
  refine ⟨rfl, rfl, rfl, ?_⟩
  simp [store, s3ExistsAt, statOf, putObject, existsS3, artifactKey]

/-- C7: the object-store `Exists` maps a `NoSuchKey` stat response to
`(false, no error)`, any other stat failure to an error, and a
successful stat to `(true, no error)`. -/
theorem existsS3_distinguishes_nosuchkey (code : String) (o : S3Object)
    (hc : code ≠ "NoSuchKey") :
    existsS3 (StatResult.errCode "NoSuchKey") = Except.ok false ∧
    existsS3 (StatResult.errCode code) = Except.error "failed to check object existence" ∧
    existsS3 (StatResult.found o) = Except.ok true := by
  refine ⟨rfl, ?_, rfl⟩
  simp [existsS3, hc]

/-- Concrete instantiation of `existsS3_distinguishes_nosuchkey` with
the `AccessDenied` error code. -/
theorem existsS3_distinguishes_nosuchkey_witness :
    ("AccessDenied" : String) ≠ "NoSuchKey" ∧
    existsS3 (StatResult.errCode "AccessDenied") =
      Except.error "failed to check object existence" :=
  ⟨by decide, (existsS3_distinguishes_nosuchkey "AccessDenied" obj0 (by decide)).2.1⟩

/-- C8 counterexample: the archive builder emits, for a regular file
owned by uid/gid 1000 with user and group names `build`, a tar header
whose owner and group fields carry those values rather than being
normalized to empty/zero. -/
theorem archive_header_keeps_owner :
    archiveHeaders [entry1000] none = [hdr1000] ∧
    hdr1000.uid ≠ 0 ∧ hdr1000.gid ≠ 0 ∧ hdr1000.uname ≠ "" ∧ hdr1000.gname ≠ "" := by
  decide

/-- C8 (amended): every header emitted by the archive builder comes
from a regular file that passed the filter; its mode bits and
modification time are preserved from the source file, and its owner
and group fields are taken from the source file's metadata (they are
not normalized away). -/
theorem archive_headers_fields_from_source (entries : List WalkEntry)
    (filt : Option (String → Bool → Bool)) (h : TarHeader)
    (hmem : h ∈ archiveHeaders entries filt) :
    ∃ e, e ∈ entries ∧ e.info.isRegular = true ∧
      h.name = e.relPath ∧ h.mode = e.info.mode ∧ h.modTime = e.info.modTime ∧
      h.uid = e.info.uid ∧ h.gid = e.info.gid ∧
      h.uname = e.info.uname ∧ h.gname = e.info.gname := by
  unfold archiveHeaders at hmem
  rcases List.mem_filterMap.mp hmem with ⟨e, he, hfe⟩
  split at hfe
  · exact absurd hfe (by simp)
  · split at hfe
    · rename_i h2
      have he2 : archiveHeader e.relPath e.info = h := Option.some.inj hfe
      subst he2
      exact ⟨e, he, h2, rfl, rfl, rfl, rfl, rfl, rfl, rfl⟩
    · exact absurd hfe (by simp)

/-- Concrete instantiation of `archive_headers_fields_from_source`. -/
theorem archive_headers_fields_from_source_witness :
    hdr1000 ∈ archiveHeaders [entry1000] none ∧
    ∃ e, e ∈ [entry1000] ∧ e.info.isRegular = true ∧
      hdr1000.name = e.relPath ∧ hdr1000.mode = e.info.mode ∧
      hdr1000.modTime = e.info.modTime ∧
      hdr1000.uid = e.info.uid ∧ hdr1000.gid = e.info.gid ∧
      hdr1000.uname = e.info.uname ∧ hdr1000.gname = e.info.gname :=
  ⟨by decide, archive_headers_fields_from_source [entry1000] none hdr1000 (by decide)⟩

/-- C9: `Delete` is idempotent on both backends.  On the filesystem
backend a delete always succeeds (a missing file's not-exist error is
tolerated), afterwards the artifact does not exist, and a second delete
succeeds as well.  On the object-store backend, after a delete the
artifact's key stats as `NoSuchKey` so `Exists` is `(false, no error)`,
and deleting again leaves the state unchanged. -/
theorem delete_idempotent_both_backends (st : FsState) (p : String)
    (s : S3Storage) (sst : S3State) :
    (fsDelete st p).2 = none ∧
    (fsDelete st p).1 p = false ∧
    (fsDelete ((fsDelete st p).1) p).2 = none ∧
    s3ExistsAt (s3Delete s sst p) s p = Except.ok false ∧
    s3Delete s (s3Delete s sst p) p = s3Delete s sst p := by
  have hok : ∀ q : FsState, (fsDelete q p).2 = none := by
    intro q
    cases hq : q p <;> simp [fsDelete, fsRemove, hq, isNotExist]
  have hgone : (fsDelete st p).1 p = false := by
    cases hq : st p <;> simp [fsDelete, fsRemove, hq, isNotExist]
  refine ⟨hok st, hgone, hok _, ?_, ?_⟩
  · simp [s3ExistsAt, s3Delete, removeObject, statOf, existsS3]
  · funext k
    by_cases hk : k = objectKey s p <;> simp [s3Delete, removeObject, hk]

/-- C10: when `Store` reports an error (a failing stream read or a
failing upload), the artifact descriptor is returned unchanged: digest,
size and last-update time keep their previous values. -/
theorem store_failure_leaves_artifact (s : S3Storage) (algo : DigestAlgo) (st : S3State)
    (a : Artifact) (readResult : Except String (List Nat)) (putOk : Bool) (nowT : Int)
    (herr : (store s algo st a readResult putOk nowT).2.2 ≠ none) :
    (store s algo st a readResult putOk nowT).2.1 = a := by
  cases readResult with
  | error e => rfl
  | ok bs =>
    cases putOk with
    | true => exact absurd rfl herr
    | false => rfl

/-- Concrete instantiation of `store_failure_leaves_artifact` at a
failing stream read. -/
theorem store_failure_leaves_artifact_witness :
    (store storage0 algo0 emptyState artOld (Except.error "read failed") true 5).2.2 ≠ none ∧
    (store storage0 algo0 emptyState artOld (Except.error "read failed") true 5).2.1 = artOld :=
  ⟨by decide,
    store_failure_leaves_artifact storage0 algo0 emptyState artOld
      (Except.error "read failed") true 5 (by decide)⟩

end SourceController
